import Mathlib

/-!
Verification development for the payment-orchestration storage layer and
operation pipeline of this repository.

Scope of the shallow embedding:
* `crates/router/src/db/payment_intent.rs` — the `PaymentIntentInterface`
  implementations: the `Store` implementation under the `kv_store` feature
  (the `RedisKv` a.k.a. Cached scheme) and the `MockDb` implementation
  (the in-memory model of the relational path).
* `crates/router/src/core/payments/operations/payment_method_validate.rs`
  — the `PaymentMethodValidate` operation (verification flow): its
  `validate_request`, `get_trackers` and `update_trackers` stages.
* `crates/router/src/types/storage/query/configs.rs` and
  `crates/router/src/types/storage/query/merchant_connector_account.rs`
  — the empty-changeset update behaviour.

Modelling conventions:
* timestamps (`PrimitiveDateTime`) are `Nat`; the ambient clock
  (`date_time::now`) is passed as an explicit `now : Nat` argument;
* machine integers (`i32`, `i64`) are `Int`; no arithmetic in the
  modelled code can overflow them on the inputs considered;
* JSON (de)serialization of a row into the cache is modelled as the
  identity: the cache stores the row itself, and `serde_json::to_string`
  / `from_str` never fail on these dereived codecs;
* async functions are sequentialized: each storage call is an explicit
  state-passing step, and fallible calls return `Except`;
* Redis command outcomes that are determined by the cache contents
  (HSETNX / HGET hit-or-miss) are computed from the modelled cache state;
  the one infrastructure failure a claim is about — the drainer
  stream-append failing after a successful cache write — is modelled by
  an explicit `appendOk : Bool` oracle.
-/

/-- Intent status set, from the spec state machine for Intent
(`RequiresPaymentMethod → RequiresConfirmation → RequiresCapture →
Processing → {Succeeded | Failed | Cancelled}`); the `enums` module is not
part of the excerpt. -/
inductive IntentStatus
  | requiresPaymentMethod
  | requiresConfirmation
  | requiresCapture
  | processing
  | succeeded
  | failed
  | cancelled
  deriving DecidableEq, Repr

/-- Terminal Intent statuses per the spec: `Succeeded`, `Failed`, `Cancelled`. -/
def IntentStatus.isTerminal : IntentStatus → Bool
  | .succeeded => true
  | .failed => true
  | .cancelled => true
  | _ => false

/-- Attempt status set; only the statuses the modelled code mentions are
needed (`Pending` is the one `make_payment_attempt` assigns). -/
inductive AttemptStatus
  | started
  | pending
  | authenticationFailed
  | failed
  | charged
  deriving DecidableEq, Repr

/-- The `payment_intents` relational row, field for field the struct
literal built in `db/payment_intent.rs` (both the `RedisKv` branch of
`insert_payment_intent` and `MockDb::insert_payment_intent` construct all
of these fields). -/
structure PaymentIntent where
  id : Int
  payment_id : String
  merchant_id : String
  status : IntentStatus
  amount : Int
  currency : Option String
  amount_captured : Option Int
  customer_id : Option String
  description : Option String
  return_url : Option String
  metadata : Option String
  connector_id : Option String
  shipping_address_id : Option String
  billing_address_id : Option String
  statement_descriptor_name : Option String
  statement_descriptor_suffix : Option String
  created_at : Nat
  modified_at : Nat
  last_synced : Option Nat
  setup_future_usage : Option String
  off_session : Option Bool
  client_secret : Option String
  deriving DecidableEq, Repr

/-- The `PaymentIntentNew` insertable row: the same payload without the
serial `id`, and with the three timestamps optional (the inserting path
defaults them to the current time when absent). -/
structure PaymentIntentNew where
  payment_id : String
  merchant_id : String
  status : IntentStatus
  amount : Int
  currency : Option String
  amount_captured : Option Int
  customer_id : Option String
  description : Option String
  return_url : Option String
  metadata : Option String
  connector_id : Option String
  shipping_address_id : Option String
  billing_address_id : Option String
  statement_descriptor_name : Option String
  statement_descriptor_suffix : Option String
  created_at : Option Nat
  modified_at : Option Nat
  last_synced : Option Nat
  setup_future_usage : Option String
  off_session : Option Bool
  client_secret : Option String
  deriving DecidableEq, Repr

/-- Storage-scheme selector (`enums::MerchantStorageScheme`): `PostgresOnly`
is the spec's Strict scheme, `RedisKv` the Cached scheme. -/
inductive MerchantStorageScheme
  | postgresOnly
  | redisKv
  deriving DecidableEq, Repr

/-- Database errors distinguished by the modelled code
(`errors::DatabaseError`); `NoFieldsToUpdate` is the one
`Config::update_by_key` and `MerchantConnectorAccount::update` match on,
`NotFound` stands for a row lookup miss. -/
inductive DatabaseError
  | noFieldsToUpdate
  | notFound
  deriving DecidableEq, Repr

/-- Storage errors surfaced by the modelled code (`errors::StorageError`):
`DuplicateValue` is the duplicate-record error of the HSETNX `Ok(0)`
branch, `ValueNotFound` the cache-miss error of `find`, `KVError` the
blanket cache-layer failure (stream append included), `DatabaseError`
wraps relational errors. -/
inductive StorageError
  | duplicateValue (msg : String)
  | valueNotFound (msg : String)
  | kvError
  | databaseError (e : DatabaseError)
  deriving DecidableEq, Repr

/-- The cache row constructed by the `RedisKv` branch of
`Store::insert_payment_intent`: `id` is the placeholder `0i32`, and both
`created_at` and `modified_at` are `new.created_at.unwrap_or_else(now)`
(note: `modified_at` is taken from `new.created_at`, not
`new.modified_at`). -/
def mkCreatedIntentKv (new : PaymentIntentNew) (now : Nat) : PaymentIntent :=
  { id := 0
    payment_id := new.payment_id
    merchant_id := new.merchant_id
    status := new.status
    amount := new.amount
    currency := new.currency
    amount_captured := new.amount_captured
    customer_id := new.customer_id
    description := new.description
    return_url := new.return_url
    metadata := new.metadata
    connector_id := new.connector_id
    shipping_address_id := new.shipping_address_id
    billing_address_id := new.billing_address_id
    statement_descriptor_name := new.statement_descriptor_name
    statement_descriptor_suffix := new.statement_descriptor_suffix
    created_at := new.created_at.getD now
    modified_at := new.created_at.getD now
    last_synced := new.last_synced
    setup_future_usage := new.setup_future_usage
    off_session := new.off_session
    client_secret := new.client_secret }

/-- The row constructed by the relational path, as realized by
`MockDb::insert_payment_intent`: `id` is the next sequence value (the
current table length `numExisting`), `created_at` defaults from
`new.created_at` and `modified_at` from `new.modified_at`. -/
def mkInsertedIntentRelational (new : PaymentIntentNew) (now : Nat)
    (numExisting : Nat) : PaymentIntent :=
  { id := (numExisting : Int)
    payment_id := new.payment_id
    merchant_id := new.merchant_id
    status := new.status
    amount := new.amount
    currency := new.currency
    amount_captured := new.amount_captured
    customer_id := new.customer_id
    description := new.description
    return_url := new.return_url
    metadata := new.metadata
    connector_id := new.connector_id
    shipping_address_id := new.shipping_address_id
    billing_address_id := new.billing_address_id
    statement_descriptor_name := new.statement_descriptor_name
    statement_descriptor_suffix := new.statement_descriptor_suffix
    created_at := new.created_at.getD now
    modified_at := new.modified_at.getD now
    last_synced := new.last_synced
    setup_future_usage := new.setup_future_usage
    off_session := new.off_session
    client_secret := new.client_secret }

/-- Projection that blanks the two backend-managed fields (`id`, assigned
by the relational sequence and placeholdered to `0` in the cache, and
`modified_at`): two rows agree on every other field exactly when their
images under this projection are equal. -/
def PaymentIntent.eraseBackendManaged (p : PaymentIntent) : PaymentIntent :=
  { p with id := 0, modified_at := 0 }

/-- Named changeset variants for the Intent (`PaymentIntentUpdate`).
Modelled from the spec: the `types/storage/payment_intent` module is not
part of the excerpt; the spec fixes a closed set of named variants per
entity ("status transition, return-url update"), and the verification
flow's `update_trackers` constructs `ReturnUrlUpdate` with exactly the
five payload fields embedded here. -/
inductive PaymentIntentUpdate
  | statusUpdate (status : IntentStatus)
  | returnUrlUpdate (return_url : Option String) (status : Option IntentStatus)
      (customer_id : Option String) (shipping_address_id : Option String)
      (billing_address_id : Option String)
  deriving DecidableEq, Repr

/-- Helper for changeset application: a provided (`some`) field overwrites,
an absent (`none`) field keeps the prior row's value. -/
def updOpt (given : Option α) (prior : Option α) : Option α :=
  match given with
  | some v => some v
  | none => prior

/-- Application of a named changeset to a prior row. Modelled from the
spec: "The apply-changeset-to-prior-row pattern: a pure function per named
changeset variant, taking the prior row and returning the new row; reused
identically by the cache-write path and the relational-write path". -/
def PaymentIntentUpdate.apply_changeset : PaymentIntentUpdate → PaymentIntent → PaymentIntent
  | .statusUpdate status, prior => { prior with status := status }
  | .returnUrlUpdate return_url status customer_id shipping_address_id billing_address_id,
    prior =>
      { prior with
        return_url := updOpt return_url prior.return_url
        status := status.getD prior.status
        customer_id := updOpt customer_id prior.customer_id
        shipping_address_id := updOpt shipping_address_id prior.shipping_address_id
        billing_address_id := updOpt billing_address_id prior.billing_address_id }

/-- One pending relational mutation queued on the drainer stream; it
carries the full payload of the equivalent relational statement
(`insert_diesel_query` / `update_query` turned into field-value pairs). -/
inductive StreamEntry
  | insertQuery (new : PaymentIntentNew)
  | updateQuery (prior : PaymentIntent) (upd : PaymentIntentUpdate)
  deriving DecidableEq, Repr

/-- Store configuration relevant to the Cached scheme (`StoreConfig` in
`services.rs`): the drainer stream base name and the partition count. -/
structure StoreConfig where
  drainer_stream_name : String
  drainer_num_partitions : Nat
  deriving DecidableEq, Repr

/-- Deterministic string hash for shard selection. Modelled from the spec:
"Shard key: deterministic hash of (merchant_id, business_id) modulo a
configured partition count N"; the concrete hash function
(`KvStorePartition::shard_key`) is not part of the excerpt. -/
def stringHash (s : String) : Nat :=
  s.foldl (fun a c => a * 31 + c.toNat) 7

/-- Shard key for an Intent, as a string `shard_k` with
`k = hash(merchant_id, payment_id) mod N`. -/
def shardKeyString (merchant_id payment_id : String) (numPartitions : Nat) : String :=
  "shard_" ++ toString (stringHash (merchant_id ++ "_" ++ payment_id) % numPartitions)

/-- Drainer stream name for a shard key (`Store::get_drainer_stream_name`):
`{shard_k}_{stream name}`. -/
def StoreConfig.drainerStream (cfg : StoreConfig) (shardKey : String) : String :=
  "\x7b" ++ shardKey ++ "\x7d_" ++ cfg.drainer_stream_name

/-- State touched by the `Store` implementation of the Intent storage
interface: the relational table (authoritative under the Strict scheme,
untouched by Cached-scheme reads and only reached through the drainer
stream for Cached-scheme writes), the cache (one `pi` hash field per
`{payment_id}_{merchant_id}` key), and the per-stream queued entries. -/
structure KvStore where
  relational : List PaymentIntent
  cache : List (String × PaymentIntent)
  streams : List (String × List StreamEntry)
  deriving DecidableEq, Repr

/-- Lookup of the `pi` hash field at a cache key (HGET semantics). -/
def kvLookup (cache : List (String × PaymentIntent)) (k : String) : Option PaymentIntent :=
  (cache.find? (fun e => e.1 == k)).map (fun e => e.2)

/-- Unconditional write of the `pi` hash field at a cache key (HSET
semantics): overwrites the binding when present, creates it otherwise. -/
def kvSet (cache : List (String × PaymentIntent)) (k : String) (v : PaymentIntent) :
    List (String × PaymentIntent) :=
  match cache with
  | [] => [(k, v)]
  | e :: rest => if e.1 == k then (k, v) :: rest else e :: kvSet rest k v

/-- Append of one entry at the tail of a named stream (XADD semantics). -/
def streamAppend (streams : List (String × List StreamEntry)) (name : String)
    (entry : StreamEntry) : List (String × List StreamEntry) :=
  match streams with
  | [] => [(name, [entry])]
  | s :: rest =>
      if s.1 == name then (s.1, s.2 ++ [entry]) :: rest
      else s :: streamAppend rest name entry

/-- The `RedisKv` branch of `Store::insert_payment_intent`: build the cache
row with the placeholder id, HSETNX it at `{payment_id}_{merchant_id}`;
on "field already present" fail with the duplicate error and change
nothing; on a fresh write build the equivalent relational INSERT and
append it to the shard's drainer stream — a failed append (`appendOk =
false`) is fatal (`KVError`) even though the cache row is already
written. -/
def Store.insertPaymentIntentKv (cfg : StoreConfig) (st : KvStore)
    (new : PaymentIntentNew) (now : Nat) (appendOk : Bool) :
    KvStore × Except StorageError PaymentIntent :=
  let key := new.payment_id ++ "_" ++ new.merchant_id
  let created_intent := mkCreatedIntentKv new now
  match kvLookup st.cache key with
  | some _ =>
      (st, .error (.duplicateValue
        ("Payment Intent already exists for payment_id: " ++ key)))
  | none =>
      let st1 := { st with cache := kvSet st.cache key created_intent }
      let query := StreamEntry.insertQuery new
      let streamName := cfg.drainerStream
        (shardKeyString created_intent.merchant_id created_intent.payment_id
          cfg.drainer_num_partitions)
      if appendOk then
        ({ st1 with streams := streamAppend st1.streams streamName query },
          .ok created_intent)
      else
        (st1, .error .kvError)

/-- The `RedisKv` branch of `Store::update_payment_intent`: apply the
changeset to the given prior row, HSET the result at the key without any
existence check, then build the equivalent relational UPDATE and append
it to the shard's drainer stream — a failed append is fatal (`KVError`)
even though the cache already holds the new row. -/
def Store.updatePaymentIntentKv (cfg : StoreConfig) (st : KvStore)
    (this : PaymentIntent) (upd : PaymentIntentUpdate) (appendOk : Bool) :
    KvStore × Except StorageError PaymentIntent :=
  let key := this.payment_id ++ "_" ++ this.merchant_id
  let updated_intent := upd.apply_changeset this
  let st1 := { st with cache := kvSet st.cache key updated_intent }
  let query := StreamEntry.updateQuery this upd
  let streamName := cfg.drainerStream
    (shardKeyString updated_intent.merchant_id updated_intent.payment_id
      cfg.drainer_num_partitions)
  if appendOk then
    ({ st1 with streams := streamAppend st1.streams streamName query },
      .ok updated_intent)
  else
    (st1, .error .kvError)

/-- The `RedisKv` branch of
`Store::find_payment_intent_by_payment_id_merchant_id`: HGET the `pi`
field at `{payment_id}_{merchant_id}` from the cache; a miss is mapped to
`ValueNotFound`. The relational table of the state is never consulted. -/
def Store.findPaymentIntentKv (st : KvStore) (payment_id merchant_id : String) :
    Except StorageError PaymentIntent :=
  let key := payment_id ++ "_" ++ merchant_id
  match kvLookup st.cache key with
  | some intent => .ok intent
  | none => .error (.valueNotFound ("Payment Intent does not exist for " ++ key))

/-- The errors of `ApiErrorResponse` the modelled operation code surfaces,
plus the spec's `ValidationError` kind produced by the (modelled)
validation helpers before any flow context is attached. -/
inductive ApiError
  | validationError
  | merchantAccountNotFound
  | verificationFailed
  | internalServerError
  deriving DecidableEq, Repr

/-- Context layers an error report can carry (`error_stack` report):
`change_context` keeps the previous layers available for diagnostics. -/
inductive ErrCtx
  | validation
  | storage (e : StorageError)
  | api (e : ApiError)
  deriving DecidableEq, Repr

/-- An `error_stack`-style report: the current (surfaced) context plus the
earlier contexts it wraps, most recent first. -/
structure Report where
  current : ErrCtx
  history : List ErrCtx
  deriving DecidableEq, Repr

/-- The `change_context` operation on a report: the new context becomes
current and the previous one is pushed onto the preserved history. -/
def Report.changeContext (r : Report) (c : ErrCtx) : Report :=
  { current := c, history := r.current :: r.history }

/-- Payment-id descriptor (`api::PaymentIdType`); the verification flow
constructs the `PaymentIntentId` variant and `get_trackers` extracts it
back. -/
inductive PaymentIdType
  | paymentIntentId (id : String)
  | connectorTransactionId (id : String)
  | paymentAttemptId (id : String)
  deriving DecidableEq, Repr

/-- Extraction of the Intent id from the descriptor
(`PaymentIdType::get_payment_intent_id`), failing on the other variants;
`get_trackers` wraps the failure as `InternalServerError`. -/
def PaymentIdType.get_payment_intent_id : PaymentIdType → Except Report String
  | .paymentIntentId id => .ok id
  | _ => .error { current := .validation, history := [] }

/-- Mandate transaction type (`api::MandateTxnType`). -/
inductive MandateTxnType
  | newMandateTxn
  | recurringMandateTxn
  deriving DecidableEq, Repr

/-- The fields of `api::VerifyRequest` the modelled verification flow
reads; the `api_models` definition is not part of the excerpt, so the
field list is taken from its uses in `payment_method_validate.rs`. -/
structure VerifyRequest where
  merchant_id : Option String
  customer_id : Option String
  name : Option String
  email : Option String
  phone : Option String
  phone_country_code : Option String
  payment_method : Option String
  payment_method_data : Option String
  payment_token : Option String
  mandate_data : Option String
  setup_future_usage : Option String
  off_session : Option Bool
  deriving DecidableEq, Repr

/-- The authenticated merchant account; only its `merchant_id` and storage
scheme matter to the modelled code. -/
structure MerchantAccount where
  merchant_id : String
  storage_scheme : MerchantStorageScheme
  deriving DecidableEq, Repr

/-- Validation that a merchant id provided in the request matches the
authenticated account (`helpers::validate_merchant_id`). Modelled from the
spec: "merchant id in request matches authenticated merchant ... Fails
with `ValidationError` on mismatch"; an absent request merchant id is not
a mismatch. -/
def validate_merchant_id (merchant_id : String) (request_merchant_id : Option String) :
    Except Report Unit :=
  match request_merchant_id with
  | none => .ok ()
  | some rid =>
      if rid = merchant_id then .ok ()
      else .error { current := .api .validationError, history := [] }

/-- Mandate-type consistency validation (`helpers::validate_mandate`).
Modelled from the spec: the helper is not part of the excerpt and no claim
exercises its failure cases; the mandate type is derived from the presence
of mandate data. -/
def validate_mandate (request : VerifyRequest) : Except Report (Option MandateTxnType) :=
  match request.mandate_data with
  | some _ => .ok (some .newMandateTxn)
  | none => .ok none

/-- Stage 1 of the verification flow
(`PaymentMethodValidate::validate_request`): check the request merchant id
against the authenticated account (mapping a mismatch into the
`MerchantAccountNotFound` flow context), validate mandate consistency, and
build the business-id descriptor from a generated validation id
(`get_or_generate_id("validation_id", &None, "val")`; generation is
modelled by the explicit `validationId` argument). The stage receives no
storage handle at all. -/
def PaymentMethodValidate.validate_request (request : VerifyRequest)
    (merchant_account : MerchantAccount) (validationId : String) :
    Except Report (String × PaymentIdType × Option MandateTxnType) :=
  match validate_merchant_id merchant_account.merchant_id request.merchant_id with
  | .error r => .error (r.changeContext (.api .merchantAccountNotFound))
  | .ok _ =>
      match validate_mandate request with
      | .error r => .error r
      | .ok mandate_type =>
          .ok (merchant_account.merchant_id,
               .paymentIntentId validationId,
               mandate_type)

/-- The insertable Attempt row (`PaymentAttemptNew`); the storage type is
not part of the excerpt, so the fields are the ones
`PaymentMethodValidate::make_payment_attempt` sets explicitly (the
remaining fields are filled by `Default::default()` and never read by the
modelled code). -/
structure PaymentAttemptNew where
  payment_id : String
  merchant_id : String
  txn_id : String
  status : AttemptStatus
  amount : Int
  currency : Option String
  connector : String
  payment_method : Option String
  confirm : Bool
  created_at : Option Nat
  modified_at : Option Nat
  last_synced : Option Nat
  deriving DecidableEq, Repr

/-- A stored Attempt row: the insertable payload plus the assigned id. -/
structure PaymentAttempt where
  id : Int
  new : PaymentAttemptNew
  deriving DecidableEq, Repr

/-- The per-attempt connector-response placeholder
(`PaymentCreate::make_connector_response` builds it from the Attempt);
its storage type is not part of the excerpt, so only the linkage fields
are modelled. -/
structure ConnectorResponseNew where
  payment_id : String
  merchant_id : String
  txn_id : String
  connector : String
  deriving DecidableEq, Repr

/-- A stored connector-response row. -/
structure ConnectorResponse where
  id : Int
  new : ConnectorResponseNew
  deriving DecidableEq, Repr

/-- A Customer row; only the identity fields and the contact details the
verification flow forwards are modelled. -/
structure Customer where
  customer_id : String
  merchant_id : String
  name : Option String
  email : Option String
  phone : Option String
  phone_country_code : Option String
  deriving DecidableEq, Repr

/-- Customer details drafted by `get_trackers` for the domain-enrichment
stage (`payments::CustomerDetails`). -/
structure CustomerDetails where
  customer_id : Option String
  name : Option String
  email : Option String
  phone : Option String
  phone_country_code : Option String
  deriving DecidableEq, Repr

/-- The storage state the verification-flow stages act on, in the shape of
`MockDb` (one in-memory table per entity). -/
structure TrackerDb where
  payment_intents : List PaymentIntent
  payment_attempts : List PaymentAttempt
  connector_responses : List ConnectorResponse
  customers : List Customer
  deriving DecidableEq, Repr

/-- One storage call issued by a pipeline stage, recorded in issuance
order. -/
inductive StorageOp
  | insertAttempt (a : PaymentAttemptNew)
  | insertIntent (i : PaymentIntentNew)
  | insertConnectorResponse (c : ConnectorResponseNew)
  | insertCustomer (customer_id : String)
  | updateIntent (id : Int) (u : PaymentIntentUpdate)
  deriving DecidableEq, Repr

/-- The kind of a recorded storage call, for stating ordering properties. -/
inductive StorageOpKind
  | attemptInsert
  | intentInsert
  | connectorResponseInsert
  | customerInsert
  | intentUpdate
  deriving DecidableEq, Repr

/-- Kind projection of a recorded storage call. -/
def StorageOp.kind : StorageOp → StorageOpKind
  | .insertAttempt _ => .attemptInsert
  | .insertIntent _ => .intentInsert
  | .insertConnectorResponse _ => .connectorResponseInsert
  | .insertCustomer _ => .customerInsert
  | .updateIntent _ _ => .intentUpdate

/-- `MockDb::insert_payment_intent`: assign the next sequence id (the
current table length), default the timestamps from the matching `new`
fields, and push the row; the mock relational insert never fails. -/
def MockDb.insert_payment_intent (db : TrackerDb) (new : PaymentIntentNew)
    (now : Nat) : TrackerDb × PaymentIntent :=
  let intent := mkInsertedIntentRelational new now db.payment_intents.length
  ({ db with payment_intents := db.payment_intents ++ [intent] }, intent)

/-- Insert of a new Attempt row, in the `MockDb` shape (sequence id, push,
never fails); the Attempt storage implementation is not part of the
excerpt. -/
def MockDb.insert_payment_attempt (db : TrackerDb) (new : PaymentAttemptNew) :
    TrackerDb × PaymentAttempt :=
  let attempt : PaymentAttempt := { id := (db.payment_attempts.length : Int), new := new }
  ({ db with payment_attempts := db.payment_attempts ++ [attempt] }, attempt)

/-- Insert of a connector-response placeholder row, in the `MockDb` shape;
the connector-response storage implementation is not part of the
excerpt. -/
def MockDb.insert_connector_response (db : TrackerDb) (new : ConnectorResponseNew) :
    TrackerDb × ConnectorResponse :=
  let cr : ConnectorResponse := { id := (db.connector_responses.length : Int), new := new }
  ({ db with connector_responses := db.connector_responses ++ [cr] }, cr)

/-- `MockDb::update_payment_intent`: locate the row with the id of the
passed prior row, overwrite it with the changeset applied to the passed
prior row, and return the new row; the source `.unwrap()`s the lookup, so
a missing id (a panic there) is modelled as `none`. -/
def MockDb.update_payment_intent (db : TrackerDb) (this : PaymentIntent)
    (update : PaymentIntentUpdate) : Option (TrackerDb × PaymentIntent) :=
  match db.payment_intents.find? (fun p => p.id == this.id) with
  | none => none
  | some _ =>
      let updated := update.apply_changeset this
      (some
        ({ db with
            payment_intents :=
              db.payment_intents.map (fun p => if p.id == this.id then updated else p) },
          updated))

/-- Intent status chosen at creation (`helpers::payment_intent_status_fsm`).
Modelled from the spec: the helper is not part of the excerpt; with
payment-method data present and `confirm = Some(true)` the Intent starts
at `RequiresConfirmation`, otherwise at `RequiresPaymentMethod` (spec
scenario in the testable properties). -/
def payment_intent_status_fsm (payment_method_data : Option String)
    (confirm : Option Bool) : IntentStatus :=
  match payment_method_data with
  | some _ => if confirm = some true then .requiresConfirmation else .requiresPaymentMethod
  | none => .requiresPaymentMethod

/-- `PaymentMethodValidate::make_payment_attempt`: a fresh Attempt row with
status `Pending`, zero amount, default currency, `confirm = true`, all
three timestamps set to now, and a generated transaction id (the UUID is
modelled by the explicit `txnId` argument). -/
def PaymentMethodValidate.make_payment_attempt (payment_id merchant_id : String)
    (connector : String) (payment_method : Option String) (txnId : String)
    (now : Nat) : PaymentAttemptNew :=
  { payment_id := payment_id
    merchant_id := merchant_id
    txn_id := txnId
    status := .pending
    amount := 0
    currency := none
    connector := connector
    payment_method := payment_method
    confirm := true
    created_at := some now
    modified_at := some now
    last_synced := some now }

/-- `PaymentMethodValidate::make_payment_intent`: a fresh Intent row with
the status chosen by the creation status helper for `confirm =
Some(true)`, zero amount, default currency, the connector recorded, all
three timestamps set to now, and a generated client secret
(`generate_id(ID_LENGTH, "{payment_id}_secret")`; the random token is
modelled by the explicit `secretTok` argument). The remaining fields are
`Default::default()`. -/
def PaymentMethodValidate.make_payment_intent (payment_id merchant_id : String)
    (connector : String) (request : VerifyRequest) (now : Nat)
    (secretTok : String) : PaymentIntentNew :=
  { payment_id := payment_id
    merchant_id := merchant_id
    status := payment_intent_status_fsm request.payment_method_data (some true)
    amount := 0
    currency := none
    amount_captured := none
    customer_id := none
    description := none
    return_url := none
    metadata := none
    connector_id := some connector
    shipping_address_id := none
    billing_address_id := none
    statement_descriptor_name := none
    statement_descriptor_suffix := none
    created_at := some now
    modified_at := some now
    last_synced := some now
    setup_future_usage := request.setup_future_usage
    off_session := request.off_session
    client_secret := some (payment_id ++ "_secret_" ++ secretTok) }

/-- `PaymentCreate::make_connector_response`: the per-attempt placeholder
built from the freshly inserted Attempt; only the linkage fields are
modelled (the operation lives in `payment_create.rs`, outside the
excerpt). -/
def PaymentCreate.make_connector_response (attempt : PaymentAttempt) :
    ConnectorResponseNew :=
  { payment_id := attempt.new.payment_id
    merchant_id := attempt.new.merchant_id
    txn_id := attempt.new.txn_id
    connector := attempt.new.connector }

/-- The aggregated per-run payment state (`PaymentData`), without the
phantom flow tag; `address` stands for `PaymentAddress::default()`. -/
structure PaymentData where
  payment_intent : PaymentIntent
  payment_attempt : PaymentAttempt
  currency : Option String
  amount : Int
  mandate_id : Option String
  setup_mandate : Option String
  token : Option String
  connector_response : ConnectorResponse
  payment_method_data : Option String
  confirm : Option Bool
  address : Option String
  force_sync : Option Bool
  refunds : List String
  deriving DecidableEq, Repr

/-- Outcome of one pipeline stage: the storage state after the stage, the
storage calls the stage issued in order, and its result or error. -/
structure StageResult (α : Type) where
  db : TrackerDb
  ops : List StorageOp
  result : Except Report α
  deriving Repr

/-- Stage 2 of the verification flow
(`PaymentMethodValidate::get_trackers`): extract the Intent id from the
descriptor, then create the three records in the source's order — first
the new Attempt, then the new Intent, then the connector-response
placeholder — mapping any storage failure into the `VerificationFailed`
flow context, and assemble the aggregated `PaymentData` (zero amount,
default currency, `confirm = Some(true)`) together with the customer
details drafted from the request. -/
def PaymentMethodValidate.get_trackers (db : TrackerDb)
    (payment_id : PaymentIdType) (merchant_id : String) (connector : String)
    (request : VerifyRequest) (now : Nat) (txnId secretTok : String) :
    StageResult (PaymentData × Option CustomerDetails) :=
  match payment_id.get_payment_intent_id with
  | .error r =>
      { db := db, ops := [],
        result := .error (r.changeContext (.api .internalServerError)) }
  | .ok pid =>
      let attemptNew := PaymentMethodValidate.make_payment_attempt pid merchant_id
        connector request.payment_method txnId now
      let (db1, payment_attempt) := MockDb.insert_payment_attempt db attemptNew
      let intentNew := PaymentMethodValidate.make_payment_intent pid merchant_id
        connector request now secretTok
      let (db2, payment_intent) := MockDb.insert_payment_intent db1 intentNew now
      let crNew := PaymentCreate.make_connector_response payment_attempt
      let (db3, connector_response) := MockDb.insert_connector_response db2 crNew
      { db := db3
        ops := [.insertAttempt attemptNew, .insertIntent intentNew,
                .insertConnectorResponse crNew]
        result := .ok
          ({ payment_intent := payment_intent
             payment_attempt := payment_attempt
             currency := none
             amount := 0
             mandate_id := none
             setup_mandate := request.mandate_data
             token := request.payment_token
             connector_response := connector_response
             payment_method_data := request.payment_method_data
             confirm := some true
             address := none
             force_sync := none
             refunds := [] },
           some { customer_id := request.customer_id
                  name := request.name
                  email := request.email
                  phone := request.phone
                  phone_country_code := request.phone_country_code }) }

/-- Stage 4 of the verification flow
(`PaymentMethodValidate::update_trackers`): no FSM is consulted (the
source comments that no fsm is involved in this operation); the stage
unconditionally issues exactly one storage update — the
`ReturnUrlUpdate` changeset with status `Some(Processing)` and the
Intent's own customer id — and stores the updated Intent back into the
payment data. The mock update's missing-id panic is modelled as a fatal
internal error. -/
def PaymentMethodValidate.update_trackers (db : TrackerDb)
    (payment_data : PaymentData) (_customer : Option Customer) :
    StageResult PaymentData :=
  let status := some IntentStatus.processing
  let customer_id := payment_data.payment_intent.customer_id
  let upd := PaymentIntentUpdate.returnUrlUpdate none status customer_id none none
  let ops := [StorageOp.updateIntent payment_data.payment_intent.id upd]
  match MockDb.update_payment_intent db payment_data.payment_intent upd with
  | some (db1, updated) =>
      { db := db1, ops := ops,
        result := .ok { payment_data with payment_intent := updated } }
  | none =>
      { db := db, ops := ops,
        result := .error { current := .api .internalServerError, history := [] } }

/-- Stage 3 of the verification flow
(`helpers::create_customer_if_not_exist`). Modelled from the spec: the
helper is not part of the excerpt; it resolves or creates the Customer row
for the drafted customer id (idempotent create-if-absent), and is a no-op
when no customer id was supplied. -/
def create_customer_if_not_exist (db : TrackerDb)
    (details : Option CustomerDetails) (merchant_id : String) :
    TrackerDb × List StorageOp × Option Customer :=
  match details.bind (fun d => d.customer_id.map (fun cid => (d, cid))) with
  | none => (db, [], none)
  | some (d, cid) =>
      match db.customers.find? (fun c => c.customer_id == cid && c.merchant_id == merchant_id) with
      | some c => (db, [], some c)
      | none =>
          let c : Customer :=
            { customer_id := cid, merchant_id := merchant_id, name := d.name,
              email := d.email, phone := d.phone,
              phone_country_code := d.phone_country_code }
          ({ db with customers := db.customers ++ [c] }, [.insertCustomer cid], some c)

/-- The four-stage driver for the verification flow. Modelled from the
spec: the generic pipeline driver (`payments_operation_core`) is not part
of the excerpt; it runs validate, tracker acquisition, domain enrichment
and tracker update in this fixed order, short-circuiting on the first
failure, with no storage access before stage 2. -/
def verifyFlowRun (db : TrackerDb) (merchant_account : MerchantAccount)
    (request : VerifyRequest) (connector : String) (now : Nat)
    (validationId txnId secretTok : String) : StageResult PaymentData :=
  match PaymentMethodValidate.validate_request request merchant_account validationId with
  | .error r => { db := db, ops := [], result := .error r }
  | .ok (merchant_id, payment_id, _mandate_type) =>
      let s2 := PaymentMethodValidate.get_trackers db payment_id merchant_id connector
        request now txnId secretTok
      match s2.result with
      | .error r => { db := s2.db, ops := s2.ops, result := .error r }
      | .ok (payment_data, details) =>
          let (db3, ops3, customer) := create_customer_if_not_exist s2.db details merchant_id
          let s4 := PaymentMethodValidate.update_trackers db3 payment_data customer
          { db := s4.db, ops := s2.ops ++ ops3 ++ s4.ops, result := s4.result }

/-- A `configs` row: the lookup key and the stored value. -/
structure Config where
  key : String
  config : String
  deriving DecidableEq, Repr

/-- The `ConfigUpdate` changeset: its only payload field is optional; a
changeset whose fields are all absent has nothing to write. -/
structure ConfigUpdate where
  config : Option String
  deriving DecidableEq, Repr

/-- Emptiness of a config changeset (no field set). -/
def ConfigUpdate.hasNoFields (u : ConfigUpdate) : Bool :=
  u.config.isNone

/-- Generic relational find-by-primary-key over the configs table
(`generics::generic_find_by_id`). Modelled from the spec: the diesel
generics are not part of the excerpt; a missing key is `NotFound`. -/
def generic_find_by_id_config (rows : List Config) (key : String) :
    Except StorageError Config :=
  match rows.find? (fun r => r.key == key) with
  | some r => .ok r
  | none => .error (.databaseError .notFound)

/-- Generic relational update-by-primary-key over the configs table
(`generics::generic_update_by_id`). Modelled from the spec: the diesel
generics are not part of the excerpt; a changeset with no fields set
fails with the `NoFieldsToUpdate` database error before touching the
table, a missing key is `NotFound`, and otherwise the set fields
overwrite the stored row, which is returned. -/
def generic_update_by_id_config (rows : List Config) (key : String)
    (upd : ConfigUpdate) : List Config × Except StorageError Config :=
  if upd.hasNoFields then
    (rows, .error (.databaseError .noFieldsToUpdate))
  else
    match rows.find? (fun r => r.key == key) with
    | none => (rows, .error (.databaseError .notFound))
    | some r =>
        let updated : Config := { r with config := upd.config.getD r.config }
        (rows.map (fun q => if q.key == key then updated else q), .ok updated)

/-- `Config::update_by_key`: run the generic update; when it fails
precisely because the changeset had no fields to update, fall back to a
find that returns the currently stored row; every other error is passed
through. -/
def Config.update_by_key (rows : List Config) (key : String) (upd : ConfigUpdate) :
    List Config × Except StorageError Config :=
  match generic_update_by_id_config rows key upd with
  | (rows1, .error e) =>
      match e with
      | .databaseError .noFieldsToUpdate => (rows1, generic_find_by_id_config rows1 key)
      | _ => (rows1, .error e)
  | ok => ok

/-- A `merchant_connector_account` row; only the primary key and the two
updatable payload fields the modelled changeset can touch are kept. -/
structure MerchantConnectorAccount where
  id : Int
  merchant_id : String
  connector_name : String
  connector_account_details : Option String
  disabled : Option Bool
  deriving DecidableEq, Repr

/-- The `MerchantConnectorAccountUpdate` changeset: every payload field is
optional; a changeset whose fields are all absent has nothing to write. -/
structure MerchantConnectorAccountUpdate where
  connector_account_details : Option String
  disabled : Option Bool
  deriving DecidableEq, Repr

/-- Emptiness of a merchant-connector-account changeset (no field set). -/
def MerchantConnectorAccountUpdate.hasNoFields (u : MerchantConnectorAccountUpdate) : Bool :=
  u.connector_account_details.isNone && u.disabled.isNone

/-- Generic relational update-by-primary-key over the
merchant-connector-account table (`generics::generic_update_by_id`), with
the same modelled semantics as for configs. -/
def generic_update_by_id_mca (rows : List MerchantConnectorAccount) (id : Int)
    (upd : MerchantConnectorAccountUpdate) :
    List MerchantConnectorAccount × Except StorageError MerchantConnectorAccount :=
  if upd.hasNoFields then
    (rows, .error (.databaseError .noFieldsToUpdate))
  else
    match rows.find? (fun r => r.id == id) with
    | none => (rows, .error (.databaseError .notFound))
    | some r =>
        let updated : MerchantConnectorAccount :=
          { r with
            connector_account_details :=
              updOpt upd.connector_account_details r.connector_account_details
            disabled := updOpt upd.disabled r.disabled }
        (rows.map (fun q => if q.id == id then updated else q), .ok updated)

/-- `MerchantConnectorAccount::update`: run the generic update keyed by the
receiver row's id; when it fails precisely because the changeset had no
fields to update, return the unchanged receiver row as a success; every
other error is passed through. -/
def MerchantConnectorAccount.update (self : MerchantConnectorAccount)
    (rows : List MerchantConnectorAccount) (upd : MerchantConnectorAccountUpdate) :
    List MerchantConnectorAccount × Except StorageError MerchantConnectorAccount :=
  match generic_update_by_id_mca rows self.id upd with
  | (rows1, .error e) =>
      match e with
      | .databaseError .noFieldsToUpdate => (rows1, .ok self)
      | _ => (rows1, .error e)
  | ok => ok

/-- Concrete insertable Intent whose explicit `created_at` and
`modified_at` differ, exercising the divergence between the two insert
constructions. -/
def cNewDistinctTimes : PaymentIntentNew :=
  { payment_id := "pay_1"
    merchant_id := "m1"
    status := .requiresConfirmation
    amount := 6540
    currency := some "USD"
    amount_captured := none
    customer_id := some "cus_1"
    description := none
    return_url := none
    metadata := none
    connector_id := some "stripe"
    shipping_address_id := none
    billing_address_id := none
    statement_descriptor_name := none
    statement_descriptor_suffix := none
    created_at := some 5
    modified_at := some 7
    last_synced := none
    setup_future_usage := none
    off_session := none
    client_secret := some "pay_1_secret_tok" }

/-- Concrete insertable Intent whose `created_at` and `modified_at`
coincide. -/
def cNewEqualTimes : PaymentIntentNew :=
  { cNewDistinctTimes with created_at := some 5, modified_at := some 5 }

/-- C1. The claim as stated is false on the code: for the same
`PaymentIntentNew` with `created_at = Some 5` and `modified_at = Some 7`,
the cache-resident row built by the `RedisKv` branch differs from the
relational row built by `MockDb::insert_payment_intent` — their
`modified_at` fields differ even with an empty relational table (the
cache path takes `modified_at` from `new.created_at`), and their `id`
fields differ once the table is non-empty (the cache id is the
placeholder `0`). -/
theorem c1_cache_vs_relational_counterexample :
    mkCreatedIntentKv cNewDistinctTimes 10 ≠ mkInsertedIntentRelational cNewDistinctTimes 10 1 ∧
    (mkCreatedIntentKv cNewDistinctTimes 10).modified_at ≠
      (mkInsertedIntentRelational cNewDistinctTimes 10 0).modified_at ∧
    (mkCreatedIntentKv cNewDistinctTimes 10).id ≠
      (mkInsertedIntentRelational cNewDistinctTimes 10 1).id := by
  refine ⟨by decide, by decide, by decide⟩

/-- C1 (amended). The cache-resident row and the relational row built from
the same `PaymentIntentNew` agree on every field other than the two
backend-managed ones (`id`, placeholdered to `0` in the cache and
sequence-assigned relationally, and `modified_at`, which the cache path
takes from `new.created_at` and the relational path from
`new.modified_at`); they are fully identical exactly when
`new.modified_at = new.created_at` and the relational sequence assigns
id `0`. -/
theorem c1_cache_vs_relational_agree_up_to_backend_fields
    (new : PaymentIntentNew) (now numExisting : Nat) :
    (mkCreatedIntentKv new now).eraseBackendManaged =
      (mkInsertedIntentRelational new now numExisting).eraseBackendManaged ∧
    (new.modified_at = new.created_at → numExisting = 0 →
      mkCreatedIntentKv new now = mkInsertedIntentRelational new now numExisting) := by
  constructor
  · simp [mkCreatedIntentKv, mkInsertedIntentRelational, PaymentIntent.eraseBackendManaged]
  · intro h hn
    subst hn
    simp [mkCreatedIntentKv, mkInsertedIntentRelational, h]

/-- C1 (witness): at a concrete insertable row whose two timestamps
coincide and an empty relational table, the two constructions produce the
identical row. -/
theorem c1_cache_vs_relational_agree_witness :
    mkCreatedIntentKv cNewEqualTimes 10 = mkInsertedIntentRelational cNewEqualTimes 10 0 :=
  (c1_cache_vs_relational_agree_up_to_backend_fields cNewEqualTimes 10 0).2 (by decide) rfl

/-- An empty tracker storage state. -/
def emptyTrackerDb : TrackerDb :=
  { payment_intents := [], payment_attempts := [], connector_responses := [], customers := [] }

/-- A concrete verification request with no optional fields set. -/
def cVerifyReq : VerifyRequest :=
  { merchant_id := none
    customer_id := none
    name := none
    email := none
    phone := none
    phone_country_code := none
    payment_method := none
    payment_method_data := none
    payment_token := none
    mandate_data := none
    setup_future_usage := none
    off_session := none }

/-- C2. The claim as stated is false on the code: on a concrete
state-originating run of the verification flow's `get_trackers`, the
storage calls are issued in the order Attempt insert, Intent insert,
connector-response insert — not Intent first as claimed. -/
theorem c2_insert_order_counterexample :
    ((PaymentMethodValidate.get_trackers emptyTrackerDb (.paymentIntentId "val_1")
        "m1" "stripe" cVerifyReq 9 "txn_1" "tok_1").ops.map StorageOp.kind ≠
      [.intentInsert, .attemptInsert, .connectorResponseInsert]) ∧
    (PaymentMethodValidate.get_trackers emptyTrackerDb (.paymentIntentId "val_1")
        "m1" "stripe" cVerifyReq 9 "txn_1" "tok_1").ops.map StorageOp.kind =
      [.attemptInsert, .intentInsert, .connectorResponseInsert] := by
  refine ⟨by decide, by decide⟩

/-- C2 (amended). For every state-originating `get_trackers` run of the
verification flow whose descriptor carries an Intent id, the three records
are created in the strict order: first the new Attempt, then the new
Intent, then the per-attempt connector-response placeholder. -/
theorem c2_insert_order (db : TrackerDb) (payment_id : PaymentIdType)
    (merchant_id connector : String) (request : VerifyRequest) (now : Nat)
    (txnId secretTok pid : String)
    (h : payment_id = .paymentIntentId pid) :
    (PaymentMethodValidate.get_trackers db payment_id merchant_id connector
        request now txnId secretTok).ops.map StorageOp.kind =
      [.attemptInsert, .intentInsert, .connectorResponseInsert] := by
  subst h
  simp [PaymentMethodValidate.get_trackers, PaymentIdType.get_payment_intent_id,
    StorageOp.kind]

/-- C2 (witness): the amended order holds on a concrete run. -/
theorem c2_insert_order_witness :
    (PaymentMethodValidate.get_trackers emptyTrackerDb (.paymentIntentId "val_2")
        "m2" "adyen" cVerifyReq 4 "txn_2" "tok_2").ops.map StorageOp.kind =
      [.attemptInsert, .intentInsert, .connectorResponseInsert] :=
  c2_insert_order emptyTrackerDb (.paymentIntentId "val_2") "m2" "adyen"
    cVerifyReq 4 "txn_2" "tok_2" "val_2" rfl

/-- A concrete store configuration. -/
def cCfg : StoreConfig := { drainer_stream_name := "drainer_stream", drainer_num_partitions := 8 }

/-- A store state with empty cache and empty streams. -/
def emptyKvStore : KvStore := { relational := [], cache := [], streams := [] }

/-- A concrete cache-resident Intent row. -/
def cIntent : PaymentIntent := mkCreatedIntentKv cNewEqualTimes 10

/-- C3. Under the Cached scheme, a stream-append failure after a
successful cache write is fatal: when the insert's HSETNX finds the key
absent (so the cache write goes through) and the drainer-stream append
fails, `insert_payment_intent` returns the `KVError` failure, and an
update whose stream append fails likewise returns the `KVError` failure —
neither ever returns success. -/
theorem c3_stream_append_failure_is_fatal (cfg : StoreConfig) (st : KvStore)
    (new : PaymentIntentNew) (this : PaymentIntent) (upd : PaymentIntentUpdate)
    (now : Nat) :
    (kvLookup st.cache (new.payment_id ++ "_" ++ new.merchant_id) = none →
      (Store.insertPaymentIntentKv cfg st new now false).2 = .error .kvError) ∧
    (Store.updatePaymentIntentKv cfg st this upd false).2 = .error .kvError := by
  constructor
  · intro h
    simp [Store.insertPaymentIntentKv, h]
  · simp [Store.updatePaymentIntentKv]

/-- C3 (witness): on the empty cache, both a fresh insert and an update
with a failing stream append surface the `KVError` failure. -/
theorem c3_stream_append_failure_is_fatal_witness :
    (Store.insertPaymentIntentKv cCfg emptyKvStore cNewEqualTimes 10 false).2 =
      .error .kvError ∧
    (Store.updatePaymentIntentKv cCfg emptyKvStore cIntent
        (.statusUpdate .processing) false).2 = .error .kvError :=
  ⟨(c3_stream_append_failure_is_fatal cCfg emptyKvStore cNewEqualTimes cIntent
      (.statusUpdate .processing) 10).1 rfl,
   (c3_stream_append_failure_is_fatal cCfg emptyKvStore cNewEqualTimes cIntent
      (.statusUpdate .processing) 10).2⟩

/-- C4. Under the Cached scheme, inserting a `PaymentIntentNew` whose
`{payment_id}_{merchant_id}` key is already present in the cache fails
with the duplicate-record error (`DuplicateValue`, the surfacing of the
HSETNX already-present outcome), and the whole store state — the existing
row included — is left unchanged. -/
theorem c4_duplicate_insert_rejected (cfg : StoreConfig) (st : KvStore)
    (new : PaymentIntentNew) (now : Nat) (appendOk : Bool) (row : PaymentIntent)
    (h : kvLookup st.cache (new.payment_id ++ "_" ++ new.merchant_id) = some row) :
    Store.insertPaymentIntentKv cfg st new now appendOk =
      (st, .error (.duplicateValue ("Payment Intent already exists for payment_id: " ++
        (new.payment_id ++ "_" ++ new.merchant_id)))) := by
  simp [Store.insertPaymentIntentKv, h]

/-- C4 (witness): inserting the same row twice on an initially empty cache
makes the second insert fail with the duplicate-record error and leave the
state of the first insert unchanged. -/
theorem c4_duplicate_insert_rejected_witness :
    Store.insertPaymentIntentKv cCfg
        (Store.insertPaymentIntentKv cCfg emptyKvStore cNewEqualTimes 10 true).1
        cNewEqualTimes 11 true =
      ((Store.insertPaymentIntentKv cCfg emptyKvStore cNewEqualTimes 10 true).1,
        .error (.duplicateValue ("Payment Intent already exists for payment_id: " ++
          ("pay_1" ++ "_" ++ "m1")))) :=
  c4_duplicate_insert_rejected cCfg
    (Store.insertPaymentIntentKv cCfg emptyKvStore cNewEqualTimes 10 true).1
    cNewEqualTimes 11 true (mkCreatedIntentKv cNewEqualTimes 10) (by decide)

/-- C5. Under the Cached scheme, `find` reads only the cache: the result
is unchanged under arbitrary replacement of the relational table, and a
cache miss yields the `ValueNotFound` error even when a row with the
requested `(payment_id, merchant_id)` exists in the relational store. -/
theorem c5_find_reads_cache_only (st : KvStore) (payment_id merchant_id : String) :
    (∀ rel2, Store.findPaymentIntentKv { st with relational := rel2 } payment_id merchant_id =
      Store.findPaymentIntentKv st payment_id merchant_id) ∧
    (kvLookup st.cache (payment_id ++ "_" ++ merchant_id) = none →
      (∃ row ∈ st.relational, row.payment_id = payment_id ∧ row.merchant_id = merchant_id) →
      Store.findPaymentIntentKv st payment_id merchant_id =
        .error (.valueNotFound ("Payment Intent does not exist for " ++
          (payment_id ++ "_" ++ merchant_id)))) := by
  constructor
  · intro rel2
    simp [Store.findPaymentIntentKv]
  · intro h _hrel
    simp [Store.findPaymentIntentKv, h]

/-- C5 (witness): with an empty cache and a relational table that does
contain the requested row, the Cached-scheme find still reports
`ValueNotFound`. -/
theorem c5_find_reads_cache_only_witness :
    Store.findPaymentIntentKv { relational := [cIntent], cache := [], streams := [] }
        "pay_1" "m1" =
      .error (.valueNotFound ("Payment Intent does not exist for " ++
        ("pay_1" ++ "_" ++ "m1"))) :=
  (c5_find_reads_cache_only { relational := [cIntent], cache := [], streams := [] }
      "pay_1" "m1").2 rfl ⟨cIntent, by decide⟩

/-- A concrete Attempt created by the verification flow. -/
def cAttempt : PaymentAttempt :=
  { id := 0,
    new := PaymentMethodValidate.make_payment_attempt "pay_1" "m1" "stripe" none "txn_1" 9 }

/-- A concrete connector-response placeholder for that Attempt. -/
def cConnResp : ConnectorResponse :=
  { id := 0, new := PaymentCreate.make_connector_response cAttempt }

/-- A concrete Intent already in the terminal `Succeeded` status. -/
def cIntentSucceeded : PaymentIntent := { cIntent with status := .succeeded }

/-- Payment data aggregating the terminal-status Intent. -/
def cSucceededPd : PaymentData :=
  { payment_intent := cIntentSucceeded
    payment_attempt := cAttempt
    currency := none
    amount := 0
    mandate_id := none
    setup_mandate := none
    token := none
    connector_response := cConnResp
    payment_method_data := none
    confirm := some true
    address := none
    force_sync := none
    refunds := [] }

/-- A tracker store holding only the terminal-status Intent. -/
def cDbSucceeded : TrackerDb := { emptyTrackerDb with payment_intents := [cIntentSucceeded] }

/-- C6. The claim as stated is false on the code: the verification flow's
`update_trackers` applies no FSM guard — on a concrete Intent already in
the terminal `Succeeded` status, the update is not rejected: it succeeds
and moves the Intent's status to the non-terminal `Processing`. -/
theorem c6_terminal_status_not_protected_counterexample :
    IntentStatus.isTerminal cSucceededPd.payment_intent.status = true ∧
    Except.map (fun pd => pd.payment_intent.status)
        (PaymentMethodValidate.update_trackers cDbSucceeded cSucceededPd none).result =
      .ok .processing ∧
    IntentStatus.isTerminal .processing = false := by
  refine ⟨rfl, rfl, rfl⟩

/-- C6 (amended). The verification flow's `update_trackers` consults no
FSM (the source states that no fsm is involved in this operation): for
every payment data whose Intent id is present in the store — whatever the
Intent's current status, terminal statuses included — the update succeeds
and unconditionally sets the status to `Processing` via the
`ReturnUrlUpdate` changeset. -/
theorem c6_update_trackers_has_no_fsm_guard (db : TrackerDb) (pd : PaymentData)
    (customer : Option Customer) (row : PaymentIntent)
    (h : db.payment_intents.find? (fun p => p.id == pd.payment_intent.id) = some row) :
    (PaymentMethodValidate.update_trackers db pd customer).result =
      .ok { pd with
        payment_intent :=
          PaymentIntentUpdate.apply_changeset
            (.returnUrlUpdate none (some .processing) pd.payment_intent.customer_id
              none none)
            pd.payment_intent } ∧
    Except.map (fun q => q.payment_intent.status)
        (PaymentMethodValidate.update_trackers db pd customer).result = .ok .processing := by
  constructor
  · simp [PaymentMethodValidate.update_trackers, MockDb.update_payment_intent, h]
  · simp [PaymentMethodValidate.update_trackers, MockDb.update_payment_intent, h,
      PaymentIntentUpdate.apply_changeset, Except.map]

/-- C6 (witness): the amended statement at the concrete terminal-status
input: the stored `Succeeded` Intent is updated to `Processing`. -/
theorem c6_update_trackers_has_no_fsm_guard_witness :
    Except.map (fun q => q.payment_intent.status)
        (PaymentMethodValidate.update_trackers cDbSucceeded cSucceededPd none).result =
      .ok .processing :=
  (c6_update_trackers_has_no_fsm_guard cDbSucceeded cSucceededPd none cIntentSucceeded
    (by decide)).2

/-- C7. A verification request carrying a merchant id different from the
authenticated account's fails in stage 1: the run returns an error report
whose preserved cause is the `ValidationError` of the merchant-id check,
surfaced under the `MerchantAccountNotFound` flow context, and the
pipeline short-circuits before stage 2 — the storage state is untouched
and no storage call is issued. -/
theorem c7_merchant_id_mismatch_short_circuits (db : TrackerDb)
    (account : MerchantAccount) (request : VerifyRequest) (connector : String)
    (now : Nat) (validationId txnId secretTok m : String)
    (h : request.merchant_id = some m) (hm : m ≠ account.merchant_id) :
    (verifyFlowRun db account request connector now validationId txnId secretTok).db = db ∧
    (verifyFlowRun db account request connector now validationId txnId secretTok).ops = [] ∧
    (verifyFlowRun db account request connector now validationId txnId secretTok).result =
      .error { current := .api .merchantAccountNotFound,
               history := [.api .validationError] } := by
  refine ⟨?_, ?_, ?_⟩ <;>
    simp [verifyFlowRun, PaymentMethodValidate.validate_request, validate_merchant_id,
      h, hm, Report.changeContext]

/-- C7 (witness): a concrete request for merchant `m2` against the
authenticated account `m1` is rejected with the wrapped validation error
and leaves the (empty) storage state untouched with no calls issued. -/
theorem c7_merchant_id_mismatch_short_circuits_witness :
    (verifyFlowRun emptyTrackerDb { merchant_id := "m1", storage_scheme := .redisKv }
        { cVerifyReq with merchant_id := some "m2" } "stripe" 9 "val_1" "txn_1" "tok_1").db =
      emptyTrackerDb ∧
    (verifyFlowRun emptyTrackerDb { merchant_id := "m1", storage_scheme := .redisKv }
        { cVerifyReq with merchant_id := some "m2" } "stripe" 9 "val_1" "txn_1" "tok_1").ops =
      [] ∧
    (verifyFlowRun emptyTrackerDb { merchant_id := "m1", storage_scheme := .redisKv }
        { cVerifyReq with merchant_id := some "m2" } "stripe" 9 "val_1" "txn_1" "tok_1").result =
      .error { current := .api .merchantAccountNotFound,
               history := [.api .validationError] } :=
  c7_merchant_id_mismatch_short_circuits emptyTrackerDb
    { merchant_id := "m1", storage_scheme := .redisKv }
    { cVerifyReq with merchant_id := some "m2" } "stripe" 9 "val_1" "txn_1" "tok_1" "m2"
    rfl (by decide)

/-- C8. Every `update_trackers` run of the verification flow issues
exactly one storage update call, for the one entity it touches (the
Intent), and that call carries the single named changeset variant
`ReturnUrlUpdate` with status `Some(Processing)` and the Intent's own
customer id — by construction of the changeset type, no open field bag
can be issued. -/
theorem c8_exactly_one_named_update (db : TrackerDb) (pd : PaymentData)
    (customer : Option Customer) :
    (PaymentMethodValidate.update_trackers db pd customer).ops =
      [.updateIntent pd.payment_intent.id
        (.returnUrlUpdate none (some .processing) pd.payment_intent.customer_id
          none none)] := by
  simp only [PaymentMethodValidate.update_trackers]
  split <;> rfl

/-- Writing a key with HSET semantics makes it readable back: lookup after
`kvSet` at the written key returns the written row. -/
theorem kvLookup_kvSet_self (cache : List (String × PaymentIntent)) (k : String)
    (v : PaymentIntent) : kvLookup (kvSet cache k v) k = some v := by
  induction cache with
  | nil => simp [kvSet, kvLookup]
  | cons e rest ih =>
      cases he : (e.1 == k) with
      | true => simp [kvSet, he, kvLookup]
      | false =>
          simp only [kvSet, he, Bool.false_eq_true, if_false]
          simp only [kvLookup, List.find?] at ih ⊢
          rw [he]
          exact ih

/-- C9. Under the Cached scheme, `update_payment_intent` is an
unconditional write-through upsert: with the stream append succeeding it
returns the changeset applied to the given prior row and the cache holds
that row at the key afterwards — with no existence check first, so for no
prior cache state (a wholly absent key included) does it fail with the
`ValueNotFound` error. -/
theorem c9_update_is_unconditional_upsert (cfg : StoreConfig) (st : KvStore)
    (this : PaymentIntent) (upd : PaymentIntentUpdate) (appendOk : Bool) :
    (appendOk = true →
      (Store.updatePaymentIntentKv cfg st this upd appendOk).2 =
        .ok (upd.apply_changeset this) ∧
      kvLookup (Store.updatePaymentIntentKv cfg st this upd appendOk).1.cache
          (this.payment_id ++ "_" ++ this.merchant_id) =
        some (upd.apply_changeset this)) ∧
    ∀ msg, (Store.updatePaymentIntentKv cfg st this upd appendOk).2 ≠
      .error (.valueNotFound msg) := by
  constructor
  · intro h
    subst h
    exact ⟨by simp [Store.updatePaymentIntentKv],
      by simp [Store.updatePaymentIntentKv, kvLookup_kvSet_self]⟩
  · intro msg
    cases appendOk <;> simp [Store.updatePaymentIntentKv]

/-- C9 (witness): updating a row whose key is wholly absent from an empty
cache succeeds, returns the changeset applied to the prior row, and leaves
that row readable at the key. -/
theorem c9_update_is_unconditional_upsert_witness :
    (Store.updatePaymentIntentKv cCfg emptyKvStore cIntent
        (.statusUpdate .processing) true).2 =
      .ok (PaymentIntentUpdate.apply_changeset (.statusUpdate .processing) cIntent) ∧
    kvLookup (Store.updatePaymentIntentKv cCfg emptyKvStore cIntent
          (.statusUpdate .processing) true).1.cache
        (cIntent.payment_id ++ "_" ++ cIntent.merchant_id) =
      some (PaymentIntentUpdate.apply_changeset (.statusUpdate .processing) cIntent) :=
  (c9_update_is_unconditional_upsert cCfg emptyKvStore cIntent
    (.statusUpdate .processing) true).1 rfl

/-- A concrete configs row. -/
def cConfigRow : Config := { key := "k1", config := "v1" }

/-- A concrete merchant-connector-account row. -/
def cMca : MerchantConnectorAccount :=
  { id := 3, merchant_id := "m1", connector_name := "stripe",
    connector_account_details := some "det", disabled := some false }

/-- C10. Applying an update whose changeset sets no fields is not an error
and acts as the identity: `Config::update_by_key` turns the generic
update's `NoFieldsToUpdate` database error into a find on the unchanged
table (returning the currently stored row when the key is present), and
`MerchantConnectorAccount::update` returns the unchanged input row over
the unchanged table in the same case. -/
theorem c10_empty_changeset_acts_as_identity (rows : List Config) (key : String)
    (u : ConfigUpdate) (mrows : List MerchantConnectorAccount)
    (self : MerchantConnectorAccount) (mu : MerchantConnectorAccountUpdate)
    (row : Config) (hu : u.hasNoFields = true) (hmu : mu.hasNoFields = true) :
    Config.update_by_key rows key u = (rows, generic_find_by_id_config rows key) ∧
    (rows.find? (fun r => r.key == key) = some row →
      Config.update_by_key rows key u = (rows, .ok row)) ∧
    MerchantConnectorAccount.update self mrows mu = (mrows, .ok self) := by
  refine ⟨?_, ?_, ?_⟩
  · simp [Config.update_by_key, generic_update_by_id_config, hu]
  · intro hf
    simp [Config.update_by_key, generic_update_by_id_config, generic_find_by_id_config,
      hu, hf]
  · simp [MerchantConnectorAccount.update, generic_update_by_id_mca, hmu]

/-- C10 (witness): on concrete one-row tables, the all-`None` config
changeset returns the stored row and the all-`None`
merchant-connector-account changeset returns the unchanged input row,
both leaving the tables unchanged. -/
theorem c10_empty_changeset_acts_as_identity_witness :
    Config.update_by_key [cConfigRow] "k1" { config := none } =
      ([cConfigRow], .ok cConfigRow) ∧
    MerchantConnectorAccount.update cMca [cMca]
        { connector_account_details := none, disabled := none } =
      ([cMca], .ok cMca) :=
  ⟨(c10_empty_changeset_acts_as_identity [cConfigRow] "k1" { config := none }
      [cMca] cMca { connector_account_details := none, disabled := none }
      cConfigRow rfl rfl).2.1 (by decide),
   (c10_empty_changeset_acts_as_identity [cConfigRow] "k1" { config := none }
      [cMca] cMca { connector_account_details := none, disabled := none }
      cConfigRow rfl rfl).2.2⟩
